import Mathlib

set_option maxRecDepth 8000

namespace TomatoApp

/-! # Shallow embedding of the Tomato Assistant batch-analysis core

Definitions below translate, case by case, the JavaScript source of the
backend (routes/analysis.js, services/mlService.js, services/storageService.js
and the LateFusionService module).  Strings are modelled as Lean strings or
lists of characters (the source only manipulates ASCII timestamps and
recommendation text); JavaScript numbers are modelled as rationals, with
JavaScript truthiness made explicit where the source relies on it. -/

/-! ## JavaScript string primitives (ASCII semantics) -/

/-- JS whitespace test for the characters relevant here, used by `trim`. -/
def jsWhitespace (c : Char) : Bool :=
  c = ' ' || c = '\t' || c = '\n' || c = '\r'

/-- JS `String.trim()` on a character list. -/
def jsTrim (s : List Char) : List Char :=
  ((s.dropWhile jsWhitespace).reverse.dropWhile jsWhitespace).reverse

/-- JS `String.toLowerCase()` on one ASCII character. -/
def jsLower (c : Char) : Char :=
  if 'A' ≤ c ∧ c ≤ 'Z' then Char.ofNat (c.toNat + 32) else c

/-- JS `a.includes(b)` on character lists: contiguous-substring test. -/
def jsIncludes : List Char → List Char → Bool
  | [], needle => needle.isEmpty
  | c :: t, needle => needle.isPrefixOf (c :: t) || jsIncludes t needle

/-! ## Batch Timestamp Correlator (routes/analysis.js, normalizeTimestamp
and the batch lookup filter of GET /batch/:batchId) -/

/-- JS `timestamp.replace('Z', '+00:00')`: a string pattern argument to
`replace` substitutes only the first occurrence. -/
def replaceFirstZ : List Char → List Char
  | [] => []
  | c :: cs =>
    if c = 'Z' then '+' :: '0' :: '0' :: ':' :: '0' :: '0' :: cs
    else c :: replaceFirstZ cs

/-- `normalizeTimestamp` from routes/analysis.js: falsy input (null, absent,
empty string) maps to null, otherwise the first `Z` becomes `+00:00`. -/
def normalizeTimestamp (ts : Option (List Char)) : Option (List Char) :=
  match ts with
  | none => none
  | some s => if s = [] then none else some (replaceFirstZ s)

/-- Fuel-driven scanner for `stripFrac`; the fuel is an upper bound on the
remaining input length, so the zero-fuel branch is never reached when the
scanner starts with the input length as fuel. -/
def stripFracFuel : Nat → List Char → List Char
  | _, [] => []
  | 0, _ :: _ => []
  | fuel + 1, c :: cs =>
    if c = '.' ∧ cs.takeWhile Char.isDigit ≠ [] then
      stripFracFuel fuel (cs.dropWhile Char.isDigit)
    else
      c :: stripFracFuel fuel cs

/-- JS `s.replace(/\.\d+/g, '')`: every occurrence of a dot followed by a
maximal nonempty run of digits is deleted. -/
def stripFrac (s : List Char) : List Char :=
  stripFracFuel s.length s

/-- JS `s.split('T')[0]`: the prefix before the first `T`. -/
def datePart (s : List Char) : List Char :=
  s.takeWhile (fun c => c ≠ 'T')

/-- Matching strategy 1 of the batch lookup filter: exact equality of the
normalized item timestamp with the normalized request id. -/
def batchStrat1 (itemN : List Char) (reqN : Option (List Char)) : Bool :=
  some itemN == reqN

/-- Matching strategy 2: the item timestamp contains the request id with
fractional-second digits stripped from the request side only (the guard
mirrors the JS truthiness tests on both strings). -/
def batchStrat2 (itemN : List Char) (reqN : Option (List Char)) : Bool :=
  match reqN with
  | none => false
  | some r => itemN ≠ [] && r ≠ [] && jsIncludes itemN (stripFrac r)

/-- Matching strategy 3: date-only comparison of the two identifiers (the
guards mirror the JS truthiness tests on the two date prefixes). -/
def batchStrat3 (itemN : List Char) (reqN : Option (List Char)) : Bool :=
  match reqN with
  | none => false
  | some r => datePart r ≠ [] && datePart itemN ≠ [] && datePart r == datePart itemN

/-- The per-item predicate of the `history.filter` in GET /batch/:batchId:
a falsy stored timestamp is rejected, then the three strategies are tried
as one short-circuit disjunction for this item. -/
def batchMatches (reqN : Option (List Char)) (itemTs : List Char) : Bool :=
  if itemTs = [] then false
  else
    let itemN := replaceFirstZ itemTs
    batchStrat1 itemN reqN || batchStrat2 itemN reqN || batchStrat3 itemN reqN

/-- The batch lookup: filter the stored batch timestamps by `batchMatches`
against the normalized request id. -/
def batchLookup (history : List (List Char)) (batchId : List Char) : List (List Char) :=
  history.filter (batchMatches (normalizeTimestamp (some batchId)))

/-! ## JavaScript numeric helpers -/

/-- JS `x || d` on a number: `0` (and `NaN`) is falsy and selects `d`. -/
def jsOrQ (q d : ℚ) : ℚ :=
  if q = 0 then d else q

/-- JS `x || d` where `x` may be absent (`undefined` is falsy). -/
def jsOrNum (v : Option ℚ) (d : ℚ) : ℚ :=
  match v with
  | none => d
  | some q => jsOrQ q d

/-- JS `x || d` on a string that may be absent: `undefined` and the empty
string are falsy and select `d`. -/
def jsOrStr (v : Option String) (d : String) : String :=
  match v with
  | none => d
  | some s => if s = "" then d else s

/-- JS `Math.round`: round half toward positive infinity. -/
def jsRound (q : ℚ) : ℤ :=
  ⌊q + 1 / 2⌋

/-- `Math.round(x * 100) / 100`, the two-decimal rounding used for the
combined confidence scores. -/
def round2 (q : ℚ) : ℚ :=
  (jsRound (q * 100) : ℚ) / 100

/-! ## Late-Fusion Engine (lateFusionService.js)

The image and soil inference records carry the fields the fusion service
reads; absent JSON fields are `none`.  Scores and confidences are
rationals. -/

structure ImageResult where
  success : Bool
  tomato_type : Option String
  health_status : Option String
  disease_type : Option String
  confidence_score : Option ℚ
  plant_health_score : Option ℚ
  recommendations : Option (List String)
deriving DecidableEq

structure SoilResult where
  success : Bool
  soil_status : Option String
  soil_issues : Option (List String)
  confidence_score : Option ℚ
  soil_quality_score : Option ℚ
  recommendations : Option (List String)
deriving DecidableEq

/-- The analytical fields of the fused verdict record built by both fusion
paths (the identifier pass-through fields user_id, image_id, soil_id and
the wall-clock date_predicted are omitted: no claim concerns them). -/
structure FusedResult where
  health_status : Option String
  disease_type : Option String
  soil_status : Option String
  recommendations : String
  combined_confidence_score : ℚ
  tomato_type : Option String
  overall_health : String
  soil_issues : String
  plant_health_score : Option ℚ
  soil_quality_score : Option ℚ
  mode : Option String
deriving DecidableEq

/-- `scoreToHealthCategory` of the fusion service: fixed thresholds, lower
bound inclusive. -/
def scoreToHealthCategory (score : ℚ) : String :=
  if score ≥ 80 then "Healthy"
  else if score ≥ 60 then "Moderate"
  else if score ≥ 40 then "Unhealthy"
  else if score ≥ 20 then "Critical"
  else "Unknown"

/-- `calculateCombinedConfidence`: each confidence passes through
`Number(x) || 0.5` and the mean is rounded to two decimals. -/
def calculateCombinedConfidence (imageConfidence soilConfidence : ℚ) : ℚ :=
  round2 ((jsOrQ imageConfidence (1 / 2) + jsOrQ soilConfidence (1 / 2)) / 2)

/-- A confidence field as received from JSON: a number, a value that
`Number(..)` cannot coerce (yielding `NaN`), or absent. -/
inductive ConfInput
  | num (q : ℚ)
  | nonNumeric
  | absent
deriving DecidableEq

/-- JS `Number(x)` collapsed through falsiness: `NaN` (from a non-numeric
value or `undefined`) and `0` behave identically under the later `|| 0.5`,
so both are mapped to `0` here. -/
def jsNumberFalsy : ConfInput → ℚ
  | .num q => q
  | .nonNumeric => 0
  | .absent => 0

/-- `calculateCombinedConfidence` on raw JSON confidence fields. -/
def calculateCombinedConfidenceJS (c1 c2 : ConfInput) : ℚ :=
  calculateCombinedConfidence (jsNumberFalsy c1) (jsNumberFalsy c2)

/-- Normalization key of `removeDuplicates`: `rec.toLowerCase().trim()`. -/
def lowerTrimKey (s : String) : List Char :=
  jsTrim (s.toList.map jsLower)

/-- The `seen`-set recursion behind the `removeDuplicates` filter; a falsy
(empty) or non-string entry is dropped outright. -/
def removeDupGo (seen : List (List Char)) : List String → List String
  | [] => []
  | r :: rs =>
    if r = "" then removeDupGo seen rs
    else if lowerTrimKey r ∈ seen then removeDupGo seen rs
    else r :: removeDupGo (lowerTrimKey r :: seen) rs

/-- `removeDuplicates`: case-insensitive, trimmed, first occurrence wins. -/
def removeDuplicates (recommendations : List String) : List String :=
  removeDupGo [] recommendations

def highPriorityKeywords : List String :=
  ["immediate", "urgent", "critical", "severe", "destroy", "remove"]

def mediumPriorityKeywords : List String :=
  ["apply", "treat", "fungicide", "fertilizer", "nutrient", "water"]

def lowPriorityKeywords : List String :=
  ["maintain", "continue", "monitoring", "prevent"]

/-- `keywords.some(k => rec.toLowerCase().includes(k))`. -/
def hasKeyword (keywords : List String) (r : String) : Bool :=
  keywords.any (fun k => jsIncludes (r.toList.map jsLower) k.toList)

/-- One step of the `prioritizeRecommendations` forEach: push the entry
into the high, medium or low bucket, defaulting to medium. -/
def prioritizeStep (acc : List String × List String × List String) (r : String) :
    List String × List String × List String :=
  if hasKeyword highPriorityKeywords r then (acc.1 ++ [r], acc.2.1, acc.2.2)
  else if hasKeyword mediumPriorityKeywords r then (acc.1, acc.2.1 ++ [r], acc.2.2)
  else if hasKeyword lowPriorityKeywords r then (acc.1, acc.2.1, acc.2.2 ++ [r])
  else (acc.1, acc.2.1 ++ [r], acc.2.2)

/-- `prioritizeRecommendations`: bucket by keyword priority, then emit
high, medium, low. -/
def prioritizeRecommendations (recommendations : List String) : List String :=
  let p := recommendations.foldl prioritizeStep ([], [], [])
  p.1 ++ p.2.1 ++ p.2.2

/-- `combineRecommendations`: concatenate, deduplicate, prioritize. -/
def combineRecommendations (imageRecs soilRecs : List String) : List String :=
  prioritizeRecommendations (removeDuplicates (imageRecs ++ soilRecs))

/-- `formatForStorage` of the fusion service on a list argument: an empty
(or absent) list yields the placeholder, otherwise the truthy, nonblank
entries joined by semicolons. -/
def formatForStorage (items : List String) : String :=
  if items = [] then "No issues found"
  else String.intercalate "; " (items.filter (fun s => !s.isEmpty && !(jsTrim s.toList).isEmpty))

/-- The guard and wrapper message of `performLateFusion`: the inner throw
message is interpolated into the outer `Late fusion failed:` rethrow. -/
def fusionGuardMessage : String :=
  "Late fusion failed: Both image and soil analyses must be successful"

/-- The simple average of the two scores used by `performLateFusion`
(each score defaulted to 0 through `||`). -/
def performAverageScore (img : ImageResult) (soil : SoilResult) : ℚ :=
  (jsOrNum img.plant_health_score 0 + jsOrNum soil.soil_quality_score 0) / 2

/-- `performLateFusion` (pure part, up to the database write): optional
chaining makes an absent input fail the success guard, whose throw is
wrapped by the catch-all into the `Late fusion failed:` message. -/
def performLateFusion (imageResults : Option ImageResult) (soilResults : Option SoilResult) :
    Except String FusedResult :=
  match imageResults, soilResults with
  | some img, some soil =>
    if img.success && soil.success then
      let imageConfidence := jsOrNum img.confidence_score (1 / 2)
      let soilConfidence := jsOrNum soil.confidence_score (1 / 2)
      let averageScore := performAverageScore img soil
      Except.ok
        { health_status := img.health_status
          disease_type := img.disease_type
          soil_status := soil.soil_status
          recommendations :=
            formatForStorage
              (combineRecommendations (img.recommendations.getD []) (soil.recommendations.getD []))
          combined_confidence_score := calculateCombinedConfidence imageConfidence soilConfidence
          tomato_type := img.tomato_type
          overall_health := scoreToHealthCategory averageScore
          soil_issues := formatForStorage (soil.soil_issues.getD [])
          plant_health_score := some (jsOrNum img.plant_health_score 0)
          soil_quality_score := some (jsOrNum soil.soil_quality_score 0)
          mode := none }
    else Except.error fusionGuardMessage
  | _, _ => Except.error fusionGuardMessage

def plantWeight : ℚ := 7 / 10

def soilWeight : ℚ := 3 / 10

/-- The 0.7/0.3 weighted score of `fuseSinglePair` (a present score is
parsed as given, an absent one defaults to 50). -/
def weightedCombinedScore (img : ImageResult) (soil : SoilResult) : ℚ :=
  img.plant_health_score.getD 50 * plantWeight + soil.soil_quality_score.getD 50 * soilWeight

/-- The fallback verdict returned by the catch block of `fuseSinglePair`
(identifier fields omitted as in `FusedResult`). -/
def fallbackFusedResult : FusedResult :=
  { health_status := some "Error"
    disease_type := some "Fusion Failed"
    soil_status := some "Error"
    recommendations := "Check system configuration"
    combined_confidence_score := 0
    tomato_type := some "Not Tomato"
    overall_health := "Unknown"
    soil_issues := "Fusion process error"
    plant_health_score := none
    soil_quality_score := none
    mode := some "batch_integrated" }

/-- `fuseSinglePair`: the only throwing path is the missing-input guard,
and the catch block converts it into `fallbackFusedResult`; the success
flags of present inputs are never inspected. -/
def fuseSinglePair (imageResult : Option ImageResult) (soilAnalysis : Option SoilResult) :
    FusedResult :=
  match imageResult, soilAnalysis with
  | some img, some soil =>
    let imageConfidence := jsOrNum img.confidence_score (1 / 2)
    let soilConfidence := jsOrNum soil.confidence_score (1 / 2)
    let combinedScore := weightedCombinedScore img soil
    let overallHealth :=
      if combinedScore ≥ 80 then "Healthy"
      else if combinedScore ≥ 60 then "Moderate"
      else if combinedScore ≥ 40 then "Unhealthy"
      else if combinedScore ≥ 20 then "Critical"
      else "Unknown"
    { health_status := some (jsOrStr img.health_status "Unknown")
      disease_type := some (jsOrStr img.disease_type "Unknown")
      soil_status := some (jsOrStr soil.soil_status "Unknown")
      recommendations :=
        formatForStorage
          (prioritizeRecommendations
            (removeDuplicates (img.recommendations.getD [] ++ soil.recommendations.getD [])))
      combined_confidence_score := round2 ((imageConfidence + soilConfidence) / 2)
      tomato_type := some (jsOrStr img.tomato_type "Unknown")
      overall_health := overallHealth
      soil_issues := formatForStorage (soil.soil_issues.getD [])
      plant_health_score := some (img.plant_health_score.getD 50)
      soil_quality_score := some (soil.soil_quality_score.getD 50)
      mode := some "batch_integrated" }
  | _, _ => fallbackFusedResult

/-! ## Storage-boundary serializers (storageService.js)

The class body defines each formatter twice; in JavaScript the later
definition wins, so these model the second pair. -/

/-- A JSON value reaching the storage formatters: a list or a string. -/
inductive JsListOrString
  | arr (items : List String)
  | str (s : String)
deriving DecidableEq

/-- Effective `formatRecommendationsForStorage`: falsy input (null,
undefined, empty string) maps to null; an array is filtered of blank
entries and semicolon-joined (an empty array yields the empty string,
arrays being truthy); a string is trimmed. -/
def formatRecommendationsForStorage (recommendations : Option JsListOrString) : Option String :=
  match recommendations with
  | none => none
  | some (.str s) => if s = "" then none else some (jsTrim s.toList).asString
  | some (.arr items) =>
    some (String.intercalate "; " (items.filter (fun r => !r.isEmpty && !(jsTrim r.toList).isEmpty)))

/-- Effective `formatSoilIssuesForStorage`: same shape as the
recommendations formatter. -/
def formatSoilIssuesForStorage (soilIssues : Option JsListOrString) : Option String :=
  match soilIssues with
  | none => none
  | some (.str s) => if s = "" then none else some (jsTrim s.toList).asString
  | some (.arr items) =>
    some (String.intercalate "; " (items.filter (fun i => !i.isEmpty && !(jsTrim i.toList).isEmpty)))

/-! ## Batch orchestration (mlService.analyzeBatchImages and the
POST /analyze-batch route) -/

/-- One entry of the `results` array built by `analyzeBatchImages`: the
per-image success flag and the `batch_index` assigned from the loop
counter over the full input list. -/
structure BatchItemResult where
  success : Bool
  batch_index : Nat
deriving DecidableEq

/-- The result list of `analyzeBatchImages`: the loop pushes one entry per
input image, indexed by position in the full input list. -/
def withIndices : List Bool → Nat → List BatchItemResult
  | [], _ => []
  | b :: bs, i => { success := b, batch_index := i } :: withIndices bs (i + 1)

/-- The response envelope of `analyzeBatchImages`. -/
structure MLBatchResponse where
  success : Bool
  successful_predictions : Nat
  failed_predictions : Nat
  results : List BatchItemResult
deriving DecidableEq

/-- `analyzeBatchImages` over the per-image inference outcomes: every
per-image failure is caught inside the loop (and `analyzeImage` itself
never throws, returning a fallback record instead), so the envelope
carries `success = true` whatever the outcomes; the outer catch fires
only if the loop machinery itself throws, which the loop body rules
out. -/
def analyzeBatchImages (flags : List Bool) : MLBatchResponse :=
  { success := true
    successful_predictions := flags.count true
    failed_predictions := flags.count false
    results := withIndices flags 0 }

/-- The `batch_index` assignment of the route: the storage loop receives
the filtered successful results in order and stores, for each, the index
`i` of the route loop over that filtered list (`result.batch_index || i`
evaluates to that same `i`).  Each pair records (position of the
observation in the full input list, stored batch_index). -/
def assignStoredIndices : List BatchItemResult → Nat → List (Nat × Nat)
  | [], _ => []
  | r :: rest, i => (r.batch_index, i) :: assignStoredIndices rest (i + 1)

/-- The (input position, stored batch_index) pairs produced by one batch
run with the given per-image outcomes: the route filters the successful
results and re-enumerates them from zero. -/
def storedBatchIndices (flags : List Bool) : List (Nat × Nat) :=
  assignStoredIndices ((withIndices flags 0).filter (fun r => r.success)) 0

/-- Outcome of the POST /analyze-batch route after inference: `aborted`
models the route-level throw (HTTP 500), `ok` the success envelope with
its analyzed and failed counts and the stored index pairs (empty when
storage was skipped). -/
inductive BatchRouteOutcome
  | aborted (message : String)
  | ok (analyzed failed : Nat) (storedIndices : List (Nat × Nat))
deriving DecidableEq

/-- The route logic after per-image inference: throw only when the batch
envelope itself reports failure; otherwise answer with a success envelope,
storing results only when at least one prediction succeeded. -/
def analyzeBatchRoute (flags : List Bool) : BatchRouteOutcome :=
  let resp := analyzeBatchImages flags
  if !resp.success then .aborted "Batch image analysis failed"
  else
    let stored :=
      if resp.successful_predictions > 0 then
        assignStoredIndices (resp.results.filter (fun r => r.success)) 0
      else []
    .ok resp.successful_predictions resp.failed_predictions stored

/-! ## Persistence Gateway retry wrapper
(storageService._executeWithRetry, ready path) -/

deriving instance DecidableEq for Except

/-- Trace of one `_executeWithRetry` run: number of operation calls, the
backoff delays awaited between consecutive attempts (in ms), and the final
outcome; `Except.error none` models the throw of an undefined last error
(reachable only with zero configured attempts). -/
structure RetryTrace (E A : Type) where
  attempts : Nat
  delays : List Nat
  outcome : Except (Option E) A
deriving DecidableEq

/-- The attempt loop of `_executeWithRetry`: `attempt` is the 1-based loop
counter, `remaining` the attempts still allowed; after a failure with
attempts remaining the loop sleeps `attempt * 500` ms. -/
def executeWithRetryGo (op : Nat → Except E A) (attempt remaining : Nat)
    (lastError : Option E) : RetryTrace E A :=
  match remaining with
  | 0 => { attempts := 0, delays := [], outcome := .error lastError }
  | r + 1 =>
    match op attempt with
    | .ok a => { attempts := 1, delays := [], outcome := .ok a }
    | .error e =>
      if r = 0 then { attempts := 1, delays := [], outcome := .error (some e) }
      else
        let t := executeWithRetryGo op (attempt + 1) r (some e)
        { attempts := t.attempts + 1, delays := 500 * attempt :: t.delays, outcome := t.outcome }

/-- The default of the `maxRetries` parameter of `_executeWithRetry`. -/
def defaultMaxRetries : Nat := 2

/-- `_executeWithRetry` on the ready path: run the attempt loop from
attempt 1 with `maxRetries` attempts allowed. -/
def executeWithRetry (op : Nat → Except E A) (maxRetries : Nat) : RetryTrace E A :=
  executeWithRetryGo op 1 maxRetries none

/-! ## Concrete records and derived predicates used in the statements -/

/-- The caller-supplied batch id of the correlator scenario. -/
def scenarioRequestId : List Char := "2024-01-01T10:00:00.123Z".toList

/-- The stored batch timestamp of the correlator scenario. -/
def scenarioStoredTs : List Char := "2024-01-01T10:00:00.456+00:00".toList

/-- A stored timestamp that matches `scenarioRequestId` only by calendar
day (different time, no shared fractional-stripped substring). -/
def scenarioDateOnlyTs : List Char := "2024-01-01T23:59:59+00:00".toList

/-- Bucket predicate: a recommendation carrying a high-priority keyword. -/
def isHighRec (r : String) : Bool :=
  hasKeyword highPriorityKeywords r

/-- Bucket predicate for the medium bucket: no high keyword, and either a
medium keyword or no keyword at all (the default bucket). -/
def isMedRec (r : String) : Bool :=
  !isHighRec r && (hasKeyword mediumPriorityKeywords r || !hasKeyword lowPriorityKeywords r)

/-- Bucket predicate for the low bucket: a low keyword and nothing of
higher priority. -/
def isLowRec (r : String) : Bool :=
  !isHighRec r && !hasKeyword mediumPriorityKeywords r && hasKeyword lowPriorityKeywords r

/-- The success guard of `performLateFusion` as one boolean: optional
chaining makes an absent input unsuccessful. -/
def bothSuccessful (oi : Option ImageResult) (os : Option SoilResult) : Bool :=
  (match oi with
   | some img => img.success
   | none => false) &&
  (match os with
   | some soil => soil.success
   | none => false)

/-- Image inference record of the spec fusion scenarios: score 90,
confidence 0.8. -/
def imgC8 : ImageResult :=
  { success := true
    tomato_type := none
    health_status := none
    disease_type := none
    confidence_score := some (8 / 10)
    plant_health_score := some 90
    recommendations := none }

/-- Soil inference record of the spec fusion scenarios: score 70,
confidence 0.6. -/
def soilC8 : SoilResult :=
  { success := true
    soil_status := none
    soil_issues := none
    confidence_score := some (6 / 10)
    soil_quality_score := some 70
    recommendations := none }

/-- The scenario image record with its success flag cleared. -/
def imgBadC1 : ImageResult :=
  { success := false
    tomato_type := none
    health_status := none
    disease_type := none
    confidence_score := some (8 / 10)
    plant_health_score := some 90
    recommendations := none }

/-- The scenario soil record with its success flag cleared. -/
def soilBadC1 : SoilResult :=
  { success := false
    soil_status := none
    soil_issues := none
    confidence_score := some (6 / 10)
    soil_quality_score := some 70
    recommendations := none }

/-- A successful image record carrying an empty recommendation list. -/
def imgC5 : ImageResult :=
  { success := true
    tomato_type := none
    health_status := none
    disease_type := none
    confidence_score := some (9 / 10)
    plant_health_score := some 90
    recommendations := some [] }

/-- A successful soil record carrying empty issue and recommendation
lists. -/
def soilC5 : SoilResult :=
  { success := true
    soil_status := some "Good"
    soil_issues := some []
    confidence_score := some (9 / 10)
    soil_quality_score := some 80
    recommendations := some [] }

/-! ## Lemmas about the timestamp normalizer -/

/-- `replaceFirstZ` fixes a string with no `Z`. -/
theorem replaceFirstZ_of_not_mem (s : List Char) (h : 'Z' ∉ s) : replaceFirstZ s = s := by
  induction s with
  | nil => rfl
  | cons c cs ih =>
    have hc : ¬ c = 'Z' := fun e => h (e ▸ List.mem_cons_self c cs)
    rw [replaceFirstZ, if_neg hc, ih (fun m => h (List.mem_cons_of_mem c m))]

/-- `replaceFirstZ` rewrites a trailing `Z` after a `Z`-free body into the
explicit zero offset. -/
theorem replaceFirstZ_append_z (b : List Char) (h : 'Z' ∉ b) :
    replaceFirstZ (b ++ ['Z']) = b ++ "+00:00".toList := by
  induction b with
  | nil => rfl
  | cons c cs ih =>
    have hc : ¬ c = 'Z' := fun e => h (e ▸ List.mem_cons_self c cs)
    rw [List.cons_append, replaceFirstZ, if_neg hc,
      ih (fun m => h (List.mem_cons_of_mem c m)), List.cons_append]

/-- No `Z` occurs in the offset text substituted for it. -/
theorem not_z_mem_offset : 'Z' ∉ "+00:00".toList := by decide

/-- On a string whose only possible `Z` is the final character — the shape
of every ISO-8601 timestamp handled by the correlator — `replaceFirstZ` is
idempotent. -/
theorem replaceFirstZ_idem (s : List Char) (h : 'Z' ∉ s.dropLast) :
    replaceFirstZ (replaceFirstZ s) = replaceFirstZ s := by
  induction s with
  | nil => rfl
  | cons c cs ih =>
    by_cases hc : c = 'Z'
    · subst hc
      cases cs with
      | nil => decide
      | cons d ds =>
        exact absurd (List.mem_cons_self 'Z' (d :: ds).dropLast)
          (by simp [List.dropLast] at h)
    · have htail : 'Z' ∉ cs.dropLast := by
        cases cs with
        | nil => simp
        | cons d ds =>
          intro m
          exact h (by simpa [List.dropLast] using Or.inr m)
      rw [replaceFirstZ, if_neg hc, replaceFirstZ, if_neg hc, ih htail]

/-- A nonempty string stays nonempty under `replaceFirstZ`. -/
theorem replaceFirstZ_ne_nil (s : List Char) (h : s ≠ []) : replaceFirstZ s ≠ [] := by
  cases s with
  | nil => exact absurd rfl h
  | cons c cs =>
    rw [replaceFirstZ]
    by_cases hc : c = 'Z'
    · rw [if_pos hc]; simp
    · rw [if_neg hc]; simp

/-- C4. The timestamp normalizer: on timestamp-shaped strings (any `Z`
only in final position) normalization is idempotent; a `Z`-suffixed
timestamp and its `+00:00` equivalent normalize to the same string; null
input maps to null. -/
theorem normalizeTimestamp_contract :
    (∀ s : List Char, 'Z' ∉ s.dropLast →
      normalizeTimestamp (normalizeTimestamp (some s)) = normalizeTimestamp (some s)) ∧
    (∀ b : List Char, 'Z' ∉ b →
      normalizeTimestamp (some (b ++ ['Z'])) = normalizeTimestamp (some (b ++ "+00:00".toList))) ∧
    normalizeTimestamp none = none := by
  refine ⟨fun s h => ?_, fun b h => ?_, rfl⟩
  · by_cases hnil : s = []
    · subst hnil; rfl
    · rw [normalizeTimestamp, if_neg hnil, normalizeTimestamp,
        if_neg (replaceFirstZ_ne_nil s hnil), replaceFirstZ_idem s h]
  · have h1 : b ++ ['Z'] ≠ [] := by simp
    have h2 : b ++ "+00:00".toList ≠ [] := by simp
    rw [normalizeTimestamp, if_neg h1, normalizeTimestamp, if_neg h2,
      replaceFirstZ_append_z b h,
      replaceFirstZ_of_not_mem (b ++ "+00:00".toList)
        (by
          intro m
          rcases List.mem_append.mp m with hb | hoff
          · exact h hb
          · exact not_z_mem_offset hoff)]

/-- Witness for C4 at the concrete timestamps of the spec scenario. -/
theorem normalizeTimestamp_contract_witness :
    normalizeTimestamp (normalizeTimestamp (some "2024-01-01T10:00:00.123Z".toList)) =
      normalizeTimestamp (some "2024-01-01T10:00:00.123Z".toList) ∧
    normalizeTimestamp (some ("2024-01-01T10:00:00".toList ++ ['Z'])) =
      normalizeTimestamp (some ("2024-01-01T10:00:00".toList ++ "+00:00".toList)) :=
  ⟨normalizeTimestamp_contract.1 _ (by decide), normalizeTimestamp_contract.2.1 _ (by decide)⟩

/-! ## The correlator on the spec scenario (C3) -/

/-- C3 counterexample: in the spec scenario the stored record is found,
but the fractional-second-stripped contains-match (strategy 2) is false
for it — stripping happens only on the request side, so the stripped
request is not a substring of a stored value that keeps its fractional
digits.  The record matches by the date-only strategy instead. -/
theorem batchLookup_strategy_counterexample :
    batchStrat1 (replaceFirstZ scenarioStoredTs) (normalizeTimestamp (some scenarioRequestId)) = false ∧
    batchStrat2 (replaceFirstZ scenarioStoredTs) (normalizeTimestamp (some scenarioRequestId)) = false ∧
    batchStrat3 (replaceFirstZ scenarioStoredTs) (normalizeTimestamp (some scenarioRequestId)) = true ∧
    batchLookup [scenarioStoredTs] scenarioRequestId = [scenarioStoredTs] := by
  refine ⟨by decide, by decide, by decide, by decide⟩

/-- C3 amended: the lookup filter evaluates the three strategies as one
per-item disjunction, so the result is the union over strategies rather
than the first nonempty strategy result set: a store holding an exact
match and a merely date-matching record returns both; and the spec
scenario record is admitted through the date-only strategy, strategy 2
being false for it. -/
theorem batchLookup_union_semantics :
    batchLookup [scenarioRequestId, scenarioDateOnlyTs] scenarioRequestId =
      [scenarioRequestId, scenarioDateOnlyTs] ∧
    batchStrat1 (replaceFirstZ scenarioRequestId) (normalizeTimestamp (some scenarioRequestId)) = true ∧
    batchStrat1 (replaceFirstZ scenarioDateOnlyTs) (normalizeTimestamp (some scenarioRequestId)) = false ∧
    batchStrat2 (replaceFirstZ scenarioDateOnlyTs) (normalizeTimestamp (some scenarioRequestId)) = false ∧
    batchStrat3 (replaceFirstZ scenarioDateOnlyTs) (normalizeTimestamp (some scenarioRequestId)) = true ∧
    batchStrat2 (replaceFirstZ scenarioStoredTs) (normalizeTimestamp (some scenarioRequestId)) = false ∧
    batchLookup [scenarioStoredTs] scenarioRequestId = [scenarioStoredTs] := by
  refine ⟨by decide, by decide, by decide, by decide, by decide, by decide, by decide⟩

/-! ## Retry wrapper theorems (C7) -/

/-- On an always-failing operation the attempt loop runs exactly its
allowed number of attempts, sleeping `attempt * 500` ms after each
non-final failure, and ends with the error of the final attempt. -/
theorem executeWithRetryGo_all_fail {E A : Type} (errs : Nat → E) :
    ∀ r : Nat, 1 ≤ r → ∀ attempt : Nat, ∀ lastError : Option E,
      executeWithRetryGo (fun i => (Except.error (errs i) : Except E A)) attempt r lastError =
        { attempts := r
          delays := (List.range' attempt (r - 1)).map (fun a => 500 * a)
          outcome := Except.error (some (errs (attempt + (r - 1)))) } := by
  intro r
  induction r with
  | zero => intro h; omega
  | succ r ih =>
    intro _ attempt lastError
    by_cases hr : r = 0
    · subst hr
      simp [executeWithRetryGo]
    · have h1 : 1 ≤ r := Nat.one_le_iff_ne_zero.mpr hr
      obtain ⟨n, rfl⟩ : ∃ n, r = n + 1 := ⟨r - 1, by omega⟩
      rw [executeWithRetryGo]
      simp only [if_neg hr, ih h1 (attempt + 1) (some (errs attempt))]
      refine congrArg₂ (fun d o => RetryTrace.mk (n + 1 + 1) d o) ?_ ?_
      · rw [Nat.add_sub_cancel, Nat.add_sub_cancel, List.range'_succ, List.map_cons]
      · rw [Nat.add_sub_cancel, Nat.add_sub_cancel]
        exact congrArg (fun m => (Except.error (some (errs m)) : Except (Option E) A)) (by omega)

/-- C7. `_executeWithRetry` on an operation failing at every attempt:
exactly `maxRetries` calls are made (default two), the waits between
consecutive attempts are `500 * 1, 500 * 2, ...` ms in order, and the
error of the final attempt is surfaced. -/
theorem executeWithRetry_retry_bound {E A : Type} (maxRetries : Nat) (h : 1 ≤ maxRetries)
    (errs : Nat → E) :
    executeWithRetry (fun i => (Except.error (errs i) : Except E A)) maxRetries =
      { attempts := maxRetries
        delays := (List.range' 1 (maxRetries - 1)).map (fun a => 500 * a)
        outcome := Except.error (some (errs maxRetries)) } ∧
    defaultMaxRetries = 2 := by
  refine ⟨?_, rfl⟩
  rw [executeWithRetry, executeWithRetryGo_all_fail errs maxRetries h 1 none]
  exact congrArg (fun m => RetryTrace.mk maxRetries
    ((List.range' 1 (maxRetries - 1)).map (fun a => 500 * a))
    (Except.error (some (errs m)))) (by omega)

/-- Witness for C7: the default two attempts on an always-failing
operation, with a single 500 ms wait and the second error surfaced. -/
theorem executeWithRetry_retry_bound_witness :
    executeWithRetry (fun i => (Except.error i : Except Nat Unit)) 2 =
      { attempts := 2
        delays := (List.range' 1 1).map (fun a => 500 * a)
        outcome := Except.error (some 2) } ∧
    defaultMaxRetries = 2 :=
  executeWithRetry_retry_bound 2 (by omega) (fun i => i)

/-! ## Batch orchestration theorems (C2, C6) -/

/-- C2 counterexample: a batch whose two image inferences both fail is
answered with the success envelope (zero analyzed, two failed, nothing
stored), not with a batch-level abort. -/
theorem analyzeBatchRoute_total_failure_counterexample :
    analyzeBatchRoute [false, false] = BatchRouteOutcome.ok 0 2 [] := by decide

/-- C2 amended: the route aborts only when the batch envelope itself
reports failure, which per-image failures never cause; a run in which
every image inference fails therefore yields the success envelope with
zero analyzed items, all items failed, and storage skipped. -/
theorem analyzeBatchRoute_total_failure (flags : List Bool) (h : ∀ b ∈ flags, b = false) :
    analyzeBatchRoute flags = BatchRouteOutcome.ok 0 flags.length [] := by
  have hcount : flags.count true = 0 := by
    rw [List.count_eq_zero]
    intro m
    simpa using h true m
  have hcf : flags.count false = flags.length := by
    rw [List.count_eq_length]
    intro b hb
    exact (h b hb).symm
  simp [analyzeBatchRoute, analyzeBatchImages, hcount, hcf]

/-- Witness for C2 at a concrete three-image batch. -/
theorem analyzeBatchRoute_total_failure_witness :
    analyzeBatchRoute [false, false, false] = BatchRouteOutcome.ok 0 3 [] :=
  analyzeBatchRoute_total_failure [false, false, false] (by decide)

/-- The stored indices produced by the route storage loop are consecutive
from its starting counter. -/
theorem assignStoredIndices_map_snd :
    ∀ (rs : List BatchItemResult) (i : Nat),
      (assignStoredIndices rs i).map Prod.snd = List.range' i rs.length := by
  intro rs
  induction rs with
  | nil => intro i; rfl
  | cons r rest ih =>
    intro i
    rw [assignStoredIndices, List.map_cons, List.length_cons, List.range'_succ, ih (i + 1)]

/-- When every image inference succeeds the success filter keeps the full
result list. -/
theorem withIndices_filter_all_true :
    ∀ (flags : List Bool) (i : Nat), (∀ b ∈ flags, b = true) →
      (withIndices flags i).filter (fun r => r.success) = withIndices flags i := by
  intro flags
  induction flags with
  | nil => intro i _; rfl
  | cons b bs ih =>
    intro i h
    have hb : b = true := h b (List.mem_cons_self b bs)
    rw [withIndices, List.filter_cons]
    simp only [hb]
    rw [ih (i + 1) (fun x hx => h x (List.mem_cons_of_mem b hx))]
    simp

/-- Storing the unfiltered result list pairs every observation with its
own input position. -/
theorem assignStoredIndices_withIndices_diag :
    ∀ (flags : List Bool) (i : Nat),
      assignStoredIndices (withIndices flags i) i =
        (List.range' i flags.length).map (fun k => (k, k)) := by
  intro flags
  induction flags with
  | nil => intro i; rfl
  | cons b bs ih =>
    intro i
    rw [withIndices, assignStoredIndices, List.length_cons, List.range'_succ, List.map_cons,
      ih (i + 1)]

/-- C6 counterexample: with a first image failing inference and a second
succeeding, the surviving observation sits at caller-visible position 1
but is stored with `batch_index` 0 — a failed item shifts the indices of
the items after it. -/
theorem storedBatchIndices_counterexample :
    storedBatchIndices [false, true] = [(1, 0)] ∧
    analyzeBatchRoute [false, true] = BatchRouteOutcome.ok 1 1 [(1, 0)] :=
  ⟨by decide, by decide⟩

/-- C6 amended: stored `batch_index` values are the positions within the
filtered list of successfully-inferred observations, counted from zero in
order; they agree with the caller-visible input positions exactly in runs
where every inference succeeds. -/
theorem storedBatchIndices_contract :
    (∀ flags : List Bool,
      (storedBatchIndices flags).map Prod.snd =
        List.range ((withIndices flags 0).filter (fun r => r.success)).length) ∧
    (∀ flags : List Bool, (∀ b ∈ flags, b = true) →
      storedBatchIndices flags = (List.range flags.length).map (fun k => (k, k))) := by
  constructor
  · intro flags
    rw [storedBatchIndices, assignStoredIndices_map_snd, List.range_eq_range']
  · intro flags h
    rw [storedBatchIndices, withIndices_filter_all_true flags 0 h,
      assignStoredIndices_withIndices_diag, List.range_eq_range']

/-- Witness for C6 on an all-success batch of two observations. -/
theorem storedBatchIndices_contract_witness :
    storedBatchIndices [true, true] = (List.range 2).map (fun k => (k, k)) :=
  storedBatchIndices_contract.2 [true, true] (by decide)

/-! ## Recommendation pipeline theorems (C9) -/

/-- The forEach of `prioritizeRecommendations` appends each entry to
exactly one bucket, so the fold computes the three filters. -/
theorem foldl_prioritizeStep (recs : List String) :
    ∀ h m l : List String,
      recs.foldl prioritizeStep (h, m, l) =
        (h ++ recs.filter isHighRec, m ++ recs.filter isMedRec, l ++ recs.filter isLowRec) := by
  induction recs with
  | nil => intro h m l; simp
  | cons r rs ih =>
    intro h m l
    rw [List.foldl_cons]
    by_cases h1 : hasKeyword highPriorityKeywords r
    · have e : prioritizeStep (h, m, l) r = (h ++ [r], m, l) := by
        simp [prioritizeStep, h1]
      rw [e, ih]
      simp [List.filter_cons, isHighRec, isMedRec, isLowRec, h1]
    · by_cases h2 : hasKeyword mediumPriorityKeywords r
      · have e : prioritizeStep (h, m, l) r = (h, m ++ [r], l) := by
          simp [prioritizeStep, h1, h2]
        rw [e, ih]
        simp [List.filter_cons, isHighRec, isMedRec, isLowRec, h1, h2]
      · by_cases h3 : hasKeyword lowPriorityKeywords r
        · have e : prioritizeStep (h, m, l) r = (h, m, l ++ [r]) := by
            simp [prioritizeStep, h1, h2, h3]
          rw [e, ih]
          simp [List.filter_cons, isHighRec, isMedRec, isLowRec, h1, h2, h3]
        · have e : prioritizeStep (h, m, l) r = (h, m ++ [r], l) := by
            simp [prioritizeStep, h1, h2, h3]
          rw [e, ih]
          simp [List.filter_cons, isHighRec, isMedRec, isLowRec, h1, h2, h3]

/-- Every entry of the dedup output comes from the input, in order. -/
theorem removeDupGo_sublist :
    ∀ (recs : List String) (seen : List (List Char)),
      List.Sublist (removeDupGo seen recs) recs := by
  intro recs
  induction recs with
  | nil => intro seen; exact List.Sublist.refl []
  | cons r rs ih =>
    intro seen
    rw [removeDupGo]
    by_cases h1 : r = ""
    · rw [if_pos h1]; exact (ih seen).cons r
    · rw [if_neg h1]
      by_cases h2 : lowerTrimKey r ∈ seen
      · rw [if_pos h2]; exact (ih seen).cons r
      · rw [if_neg h2]; exact (ih (lowerTrimKey r :: seen)).cons₂ r

/-- The dedup output never repeats a normalization key, and never emits a
key already recorded as seen. -/
theorem removeDupGo_keys :
    ∀ (recs : List String) (seen : List (List Char)),
      ((removeDupGo seen recs).map lowerTrimKey).Nodup ∧
      ∀ k ∈ (removeDupGo seen recs).map lowerTrimKey, k ∉ seen := by
  intro recs
  induction recs with
  | nil => intro seen; simp [removeDupGo]
  | cons r rs ih =>
    intro seen
    rw [removeDupGo]
    by_cases h1 : r = ""
    · rw [if_pos h1]; exact ih seen
    · rw [if_neg h1]
      by_cases h2 : lowerTrimKey r ∈ seen
      · rw [if_pos h2]; exact ih seen
      · rw [if_neg h2]
        have hrest := ih (lowerTrimKey r :: seen)
        refine ⟨?_, ?_⟩
        · rw [List.map_cons, List.nodup_cons]
          refine ⟨fun hmem => ?_, hrest.1⟩
          exact (hrest.2 _ hmem) (List.mem_cons_self _ _)
        · intro k hk
          rcases List.mem_cons.mp hk with hk | hk
          · exact hk ▸ h2
          · exact fun hs => (hrest.2 k hk) (List.mem_cons_of_mem _ hs)

/-- C9. The combined recommendation list: the priority pass emits the
high-keyword entries first, then the medium (including unmatched)
entries, then the low ones, each bucket keeping input order; the dedup
pass keeps a subsequence of its input with pairwise distinct
case-insensitive trimmed keys; and on the spec inputs the pipeline
produces exactly the expected output. -/
theorem combineRecommendations_contract :
    (∀ recs : List String,
      prioritizeRecommendations recs =
        recs.filter isHighRec ++ recs.filter isMedRec ++ recs.filter isLowRec) ∧
    (∀ recs : List String, List.Sublist (removeDuplicates recs) recs) ∧
    (∀ recs : List String, ((removeDuplicates recs).map lowerTrimKey).Nodup) ∧
    combineRecommendations ["Apply fungicide", "apply FUNGICIDE "]
        ["Destroy infected leaves", "Continue monitoring"] =
      ["Destroy infected leaves", "Apply fungicide", "Continue monitoring"] := by
  refine ⟨fun recs => ?_, fun recs => removeDupGo_sublist recs [],
    fun recs => (removeDupGo_keys recs []).1, by decide⟩
  rw [prioritizeRecommendations, foldl_prioritizeStep recs [] [] []]
  simp

/-! ## Late-fusion theorems (C1, C5, C8, C10) -/

/-- C1 counterexample: both inputs are present but individually
unsuccessful, yet `fuseSinglePair` returns an ordinary computed verdict
(weighted score 84, hence Healthy) instead of signalling a fusion error;
`performLateFusion` on the same inputs does reject. -/
theorem fuseSinglePair_no_success_check :
    (fuseSinglePair (some imgBadC1) (some soilBadC1)).overall_health = "Healthy" ∧
    (fuseSinglePair (some imgBadC1) (some soilBadC1)).health_status = some "Unknown" ∧
    performLateFusion (some imgBadC1) (some soilBadC1) = Except.error fusionGuardMessage := by
  refine ⟨?_, rfl, ?_⟩
  · norm_num [fuseSinglePair, weightedCombinedScore, imgBadC1, soilBadC1, plantWeight, soilWeight]
  · simp [performLateFusion, imgBadC1, soilBadC1]

/-- C1 amended: the reject-unless-both-successful rule and the wrapped
rethrow hold on the `performLateFusion` entry point; `fuseSinglePair`
instead rejects only an absent input, converts that failure into the
fallback verdict returned normally, and fuses present inputs without
inspecting their success flags. -/
theorem lateFusion_error_handling :
    (∀ (oi : Option ImageResult) (os : Option SoilResult),
      bothSuccessful oi os = false →
        performLateFusion oi os = Except.error fusionGuardMessage) ∧
    fusionGuardMessage =
      "Late fusion failed: " ++ "Both image and soil analyses must be successful" ∧
    (∀ os : Option SoilResult, fuseSinglePair none os = fallbackFusedResult) ∧
    (∀ oi : Option ImageResult, fuseSinglePair oi none = fallbackFusedResult) ∧
    (∀ (img : ImageResult) (soil : SoilResult),
      (fuseSinglePair (some img) (some soil)).health_status =
        some (jsOrStr img.health_status "Unknown")) := by
  refine ⟨?_, rfl, ?_, ?_, ?_⟩
  · intro oi os h
    cases oi with
    | none => cases os <;> rfl
    | some img =>
      cases os with
      | none => rfl
      | some soil =>
        have hguard : (img.success && soil.success) = false := by
          simpa [bothSuccessful] using h
        simp [performLateFusion, hguard]
  · intro os; cases os <;> rfl
  · intro oi; cases oi <;> rfl
  · intro img soil; rfl

/-- Witness for C1: an absent soil input makes `performLateFusion`
signal the wrapped error, while an absent image input makes
`fuseSinglePair` return the fallback verdict. -/
theorem lateFusion_error_handling_witness :
    performLateFusion (some imgBadC1) none = Except.error fusionGuardMessage ∧
    fuseSinglePair none (some soilBadC1) = fallbackFusedResult :=
  ⟨lateFusion_error_handling.1 (some imgBadC1) none (by decide),
    lateFusion_error_handling.2.2.1 (some soilBadC1)⟩

/-- C5 counterexample: a successful fusion with entirely empty
recommendation lists serializes its recommendations field to the literal
placeholder, because the fusion-service serializer applies the
placeholder to every empty list, recommendations included. -/
theorem fusionRecommendations_placeholder_counterexample :
    (performLateFusion (some imgC5) (some soilC5)).toOption.map
        (fun r => r.recommendations) = some "No issues found" := by
  decide

/-- C5 amended: at the fusion boundary the `No issues found` placeholder
applies to both empty lists — recommendations and soil issues alike —
while the storage-service formatters (the effective duplicates) map an
empty array to the empty string and a falsy value to null. -/
theorem storageSerialization_contract :
    (performLateFusion (some imgC5) (some soilC5)).toOption.map
        (fun r => (r.recommendations, r.soil_issues)) =
      some ("No issues found", "No issues found") ∧
    formatForStorage [] = "No issues found" ∧
    formatRecommendationsForStorage (some (.arr [])) = some "" ∧
    formatSoilIssuesForStorage (some (.arr [])) = some "" ∧
    formatRecommendationsForStorage none = none ∧
    formatSoilIssuesForStorage none = none := by
  refine ⟨by decide, rfl, rfl, rfl, rfl, rfl⟩

/-- C8. The spec fusion scenarios: the single-pair path averages the two
scores without weights (80, Healthy, confidence 0.70), the
batch-integrated path weights them 0.7/0.3 (84, Healthy). -/
theorem fusionScores_scenarios :
    performAverageScore imgC8 soilC8 = 80 ∧
    (performLateFusion (some imgC8) (some soilC8)).toOption.map
        (fun r => (r.overall_health, r.combined_confidence_score)) =
      some ("Healthy", 7 / 10) ∧
    weightedCombinedScore imgC8 soilC8 = 84 ∧
    (fuseSinglePair (some imgC8) (some soilC8)).overall_health = "Healthy" := by
  refine ⟨?_, ?_, ?_, ?_⟩
  · norm_num [performAverageScore, imgC8, soilC8, jsOrNum, jsOrQ]
  · norm_num [performLateFusion, performAverageScore, imgC8, soilC8, jsOrNum, jsOrQ,
      scoreToHealthCategory, calculateCombinedConfidence, round2, jsRound, Except.toOption]
  · norm_num [weightedCombinedScore, imgC8, soilC8, plantWeight, soilWeight]
  · norm_num [fuseSinglePair, weightedCombinedScore, imgC8, soilC8, plantWeight, soilWeight]

/-- C10. In the combined-confidence computation a present-but-zero or
non-coercible confidence behaves exactly like an absent one (replaced by
the 0.5 default), and with the other input nonnegative a zero-confidence
input can never drive the combined confidence below 0.25. -/
theorem combinedConfidence_zero_default :
    (∀ c : ConfInput,
      calculateCombinedConfidenceJS (.num 0) c = calculateCombinedConfidenceJS .absent c) ∧
    (∀ c : ConfInput,
      calculateCombinedConfidenceJS .nonNumeric c = calculateCombinedConfidenceJS .absent c) ∧
    (∀ c : ConfInput,
      calculateCombinedConfidenceJS c (.num 0) = calculateCombinedConfidenceJS c .absent) ∧
    (∀ c : ConfInput,
      calculateCombinedConfidenceJS c .nonNumeric = calculateCombinedConfidenceJS c .absent) ∧
    (∀ c : ConfInput, 0 ≤ jsNumberFalsy c →
      1 / 4 ≤ calculateCombinedConfidenceJS (.num 0) c) := by
  refine ⟨fun c => rfl, fun c => rfl, fun c => rfl, fun c => rfl, ?_⟩
  intro c h
  have hz : jsOrQ (jsNumberFalsy (.num 0)) (1 / 2) = 1 / 2 := by
    simp [jsNumberFalsy, jsOrQ]
  have hd : 0 < jsOrQ (jsNumberFalsy c) (1 / 2) := by
    by_cases hv : jsNumberFalsy c = 0
    · rw [jsOrQ, if_pos hv]; norm_num
    · rw [jsOrQ, if_neg hv]; exact lt_of_le_of_ne h (Ne.symm hv)
  rw [calculateCombinedConfidenceJS, calculateCombinedConfidence, hz, round2, jsRound]
  set d := jsOrQ (jsNumberFalsy c) (1 / 2) with hdd
  have harith : (1 / 2 + d) / 2 * 100 = 25 + 50 * d := by ring
  have hfloor : (25 : ℤ) ≤ ⌊(1 / 2 + d) / 2 * 100 + 1 / 2⌋ := by
    rw [harith]
    refine Int.le_floor.mpr ?_
    push_cast
    linarith
  calc (1 / 4 : ℚ) = (25 : ℚ) / 100 := by norm_num
    _ ≤ (⌊(1 / 2 + d) / 2 * 100 + 1 / 2⌋ : ℚ) / 100 := by
        exact (div_le_div_iff_of_pos_right (by norm_num)).mpr (by exact_mod_cast hfloor)

/-- Witness for C10 with the other confidence equal to 0.6. -/
theorem combinedConfidence_zero_default_witness :
    calculateCombinedConfidenceJS (.num 0) (.num (6 / 10)) =
      calculateCombinedConfidenceJS .absent (.num (6 / 10)) ∧
    1 / 4 ≤ calculateCombinedConfidenceJS (.num 0) (.num (6 / 10)) :=
  ⟨combinedConfidence_zero_default.1 _,
    combinedConfidence_zero_default.2.2.2.2 _ (by norm_num [jsNumberFalsy])⟩

end TomatoApp
